import Mathlib

/-! Overview.

Shallow embedding of the token-based session core of the fullstack-web3-dapp
repository: the client-side auth state machine (`AuthContext`: reducer and the
`login` / `register` / `connectWallet` / `logout` / `refreshTokens` /
`checkAuth` operations), the Apollo error link with its token-refresh handler,
and the `ProtectedRoute` route guard.

Asynchronous server calls are embedded by passing the awaited outcome
explicitly: a mutation that can throw is an `Except Unit AuthResponse`
(`Except.error` is the thrown exception, `Except.ok` the resolved `data`).
`localStorage` is a record of the keys the core touches.  Each operation maps
the pre-state (storage, in-memory auth state) to the post-state, mirroring the
sequence of `localStorage` writes and reducer dispatches in the source.
-/

namespace DApp

/-! Data model (src/frontend/src/types/auth.ts) -/

inductive UserRole
  | USER
  | ADMIN
  | MODERATOR
deriving DecidableEq, Repr

inductive UserStatus
  | ACTIVE
  | INACTIVE
  | BANNED
  | PENDING
deriving DecidableEq, Repr

structure WalletAddress where
  address : String
  network : String
  isVerified : Bool
  createdAt : String
deriving DecidableEq, Repr

structure User where
  id : String
  username : String
  email : String
  role : UserRole
  status : UserStatus
  firstName : Option String := none
  lastName : Option String := none
  avatar : Option String := none
  walletAddresses : Option (List WalletAddress) := none
  primaryWallet : Option String := none
deriving DecidableEq, Repr

structure TokenPair where
  accessToken : String
  refreshToken : String
  tokenType : String
  expiresIn : Nat
deriving DecidableEq, Repr

/-- Response shape of `login` / `register` / `walletLogin` / `refreshToken`:
`success` and `message` always present, `tokens` and `user` optional. -/
structure AuthResponse where
  success : Bool
  message : String
  tokens : Option TokenPair := none
  user : Option User := none
deriving DecidableEq, Repr

structure AuthState where
  isAuthenticated : Bool
  user : Option User
  tokens : Option TokenPair
  loading : Bool
  error : Option String
deriving DecidableEq, Repr

/-! Reducer (src/frontend/src/contexts/AuthContext, `authReducer`) -/

inductive AuthAction
  | LOGIN_START
  | LOGIN_SUCCESS (user : User) (tokens : TokenPair)
  | LOGIN_ERROR (msg : String)
  | LOGOUT
  | SET_LOADING (b : Bool)
  | SET_ERROR (e : Option String)
  | UPDATE_USER (u : User)
deriving DecidableEq, Repr

def initialState : AuthState :=
  { isAuthenticated := false, user := none, tokens := none,
    loading := false, error := none }

def authReducer (state : AuthState) (action : AuthAction) : AuthState :=
  match action with
  | .LOGIN_START =>
      { state with loading := true, error := none }
  | .LOGIN_SUCCESS u t =>
      { state with loading := false, isAuthenticated := true,
                   user := some u, tokens := some t, error := none }
  | .LOGIN_ERROR m =>
      { state with loading := false, isAuthenticated := false,
                   user := none, tokens := none, error := some m }
  | .LOGOUT => initialState
  | .SET_LOADING b => { state with loading := b }
  | .SET_ERROR e => { state with error := e }
  | .UPDATE_USER u => { state with user := some u }

/-! Durable client storage -/

/-- The durable client-side key-value store (`localStorage`), restricted to
the keys this core touches.  `userData` holds the serialized user: `some none`
stands for a present but unparsable value (`JSON.parse` throws), while
`some (some u)` parses to `u`.  `other` records whether any unrelated keys are
present; they are wiped only by a full `localStorage.clear()`. -/
structure Storage where
  accessToken : Option String
  refreshToken : Option String
  userData : Option (Option User)
  other : Bool
deriving DecidableEq, Repr

def emptyStorage : Storage :=
  { accessToken := none, refreshToken := none, userData := none, other := false }

/-! Session Controller operations (AuthContext) -/

/-- Awaited outcome of a GraphQL mutation: `Except.error` models a thrown
error (network failure, GraphQL transport error), `Except.ok` the resolved
response data. -/
abbrev ServerOutcome := Except Unit AuthResponse

/-- JS truthiness test `result.success && result.tokens && result.user`
guarding the success branch of `login` / `walletLogin` / `refreshTokens`. -/
def responseOk (r : AuthResponse) : Bool :=
  r.success && r.tokens.isSome && r.user.isSome

/-- Operation `clearAuth`: removes the three auth keys from `localStorage` and
dispatches `LOGOUT`. -/
def clearAuth (σ : Storage) (s : AuthState) : Storage × AuthState :=
  ({ σ with accessToken := none, refreshToken := none, userData := none },
   authReducer s .LOGOUT)

/-- Operation `storeAuth`: writes the three auth keys and dispatches `LOGIN_SUCCESS`. -/
def storeAuth (u : User) (t : TokenPair) (σ : Storage) (s : AuthState) :
    Storage × AuthState :=
  ({ σ with accessToken := some t.accessToken,
            refreshToken := some t.refreshToken,
            userData := some (some u) },
   authReducer s (.LOGIN_SUCCESS u t))

/-- Operation `login`: dispatches `LOGIN_START`, awaits the mutation, then either
stores the pair (`success && tokens && user`), dispatches `LOGIN_ERROR` with
the response message, or — on a thrown error — dispatches `LOGIN_ERROR` with a
generic message and returns a synthetic failure response. -/
def login (resp : ServerOutcome) (σ : Storage) (s : AuthState) :
    (Storage × AuthState) × AuthResponse :=
  let s1 := authReducer s .LOGIN_START
  match resp with
  | .ok result =>
      match result.success, result.tokens, result.user with
      | true, some t, some u => (storeAuth u t σ s1, result)
      | _, _, _ =>
          ((σ, authReducer s1 (.LOGIN_ERROR result.message)), result)
  | .error _ =>
      ((σ, authReducer s1 (.LOGIN_ERROR "Login failed. Please try again.")),
       { success := false, message := "Login failed. Please try again." })

/-- Operation `register`: like `login`, but on `success && user` it branches on token
presence — `storeAuth` when tokens are included (auto-login), otherwise only
`SET_LOADING false` (email verification pending, nothing stored). -/
def register (resp : ServerOutcome) (σ : Storage) (s : AuthState) :
    (Storage × AuthState) × AuthResponse :=
  let s1 := authReducer s .LOGIN_START
  match resp with
  | .ok result =>
      match result.success, result.user with
      | true, some u =>
          match result.tokens with
          | some t => (storeAuth u t σ s1, result)
          | none => ((σ, authReducer s1 (.SET_LOADING false)), result)
      | _, _ =>
          ((σ, authReducer s1 (.LOGIN_ERROR result.message)), result)
  | .error _ =>
      ((σ, authReducer s1
          (.LOGIN_ERROR "Registration failed. Please try again.")),
       { success := false, message := "Registration failed. Please try again." })

/-- Operation `connectWallet` (wallet login): same shape as `login` with its own
generic error message. -/
def connectWallet (resp : ServerOutcome) (σ : Storage) (s : AuthState) :
    (Storage × AuthState) × AuthResponse :=
  let s1 := authReducer s .LOGIN_START
  match resp with
  | .ok result =>
      match result.success, result.tokens, result.user with
      | true, some t, some u => (storeAuth u t σ s1, result)
      | _, _, _ =>
          ((σ, authReducer s1 (.LOGIN_ERROR result.message)), result)
  | .error _ =>
      ((σ, authReducer s1
          (.LOGIN_ERROR "Wallet login failed. Please try again.")),
       { success := false, message := "Wallet login failed. Please try again." })

/-- Operation `logout`: awaits the server-side logout inside `try` (a thrown error is
only logged), and in the `finally` block always runs `clearAuth`.  The server
outcome is therefore ignored. -/
def logout (_resp : Except Unit Unit) (σ : Storage) (s : AuthState) :
    Storage × AuthState :=
  clearAuth σ s

/-- Shared response handling of `refreshTokens` after the awaited
`refreshTokenMutation`: success with tokens and user stores the new pair;
any other response — and a thrown error — clears the session. -/
def refreshHandle (outcome : ServerOutcome) (σ : Storage) (s : AuthState) :
    (Storage × AuthState) × Bool :=
  match outcome with
  | .ok result =>
      match result.success, result.tokens, result.user with
      | true, some t, some u => (storeAuth u t σ s, true)
      | _, _, _ => (clearAuth σ s, false)
  | .error _ => (clearAuth σ s, false)

/-- Operation `refreshTokens`: reads the stored refresh token (absent → `false`, no
request sent), sends it to the `refreshToken` mutation once, and handles the
outcome with `refreshHandle`.  The third component is the list of refresh
tokens actually sent to the server, in order. -/
def refreshTokens (rotate : String → ServerOutcome) (σ : Storage)
    (s : AuthState) : (Storage × AuthState) × Bool × List String :=
  match σ.refreshToken with
  | none => ((σ, s), false, [])
  | some rt =>
      let (post, ok) := refreshHandle (rotate rt) σ s
      (post, ok, [rt])

/-- Operation `checkAuth` (the mount-time effect): dispatches `SET_LOADING true`; if
all three keys are present, parses the stored user (parse failure →
`clearAuth`), rebuilds a `TokenPair` from the stored strings with
`tokenType = "bearer"` and `expiresIn = 30 * 60`, validates via
`refreshTokens`, and on refresh success dispatches `LOGIN_SUCCESS` with the
parsed user and the rebuilt (pre-refresh) pair; on refresh failure calls
`clearAuth`.  Finally dispatches `SET_LOADING false`.  Returns the rotate
request list of the inner `refreshTokens` call. -/
def checkAuth (rotate : String → ServerOutcome) (σ : Storage)
    (s : AuthState) : (Storage × AuthState) × List String :=
  let s1 := authReducer s (.SET_LOADING true)
  let step :
      (Storage × AuthState) × List String :=
    match σ.accessToken, σ.refreshToken, σ.userData with
    | some a, some r, some ud =>
        match ud with
        | some user =>
            let tokens : TokenPair :=
              { accessToken := a, refreshToken := r,
                tokenType := "bearer", expiresIn := 30 * 60 }
            let ((σr, sr), ok, calls) := refreshTokens rotate σ s1
            if ok then
              ((σr, authReducer sr (.LOGIN_SUCCESS user tokens)), calls)
            else
              (clearAuth σr sr, calls)
        | none => (clearAuth σ s1, [])
    | _, _, _ => ((σ, s1), [])
  ((step.1.1, authReducer step.1.2 (.SET_LOADING false)), step.2)

/-! Apollo error link (src/frontend/src/services/apollo) -/

/-- Prefix test on character lists. -/
def charsPrefix : List Char → List Char → Bool
  | [], _ => true
  | _ :: _, [] => false
  | p :: ps, c :: cs => p == c && charsPrefix ps cs

/-- Containment of `pat` as a contiguous run of `cs`. -/
def charsInfix (pat : List Char) : List Char → Bool
  | [] => charsPrefix pat []
  | c :: cs => charsPrefix pat (c :: cs) || charsInfix pat cs

/-- Substring test embedding JS `String.prototype.includes`: `pat` occurs
contiguously inside `s`. -/
def strContains (s pat : String) : Bool :=
  charsInfix pat.data s.data

/-- One entry of `graphQLErrors`: the fields the error link reads. -/
structure GqlError where
  message : String
  code : Option String
deriving DecidableEq, Repr

/-- The fields of `networkError` the error link reads: `statusCode = none`
models an error object without a `statusCode` property. -/
structure NetError where
  statusCode : Option Nat
deriving DecidableEq, Repr

/-- Browser-side state the error link acts on: storage, the current
`window.location.pathname`, a pending `window.location.href` assignment, and
whether `window.location.reload()` was invoked. -/
structure ClientCtx where
  storage : Storage
  pathname : String
  href : Option String
  reloaded : Bool
deriving DecidableEq, Repr

/-- Outcome of the raw `fetch` in `handleTokenRefresh`: `Except.error` a
thrown network error; `Except.ok none` a parsed body with no
`data.refreshToken` field; `Except.ok (some r)` the refresh payload. -/
abbrev FetchOutcome := Except Unit (Option AuthResponse)

/-- Condition under which a GraphQL error is treated as an authentication
error: `extensions?.code === "UNAUTHENTICATED"` or the message contains
`"Not authenticated"`. -/
def authGqlError (e : GqlError) : Bool :=
  e.code == some "UNAUTHENTICATED" || strContains e.message "Not authenticated"

/-- Per-error handling in the `graphQLErrors.forEach` loop: an
authentication error removes the three auth keys and, unless the current
pathname contains `/login` or `/register`, navigates to `/login`. -/
def handleGqlError (c : ClientCtx) (e : GqlError) : ClientCtx :=
  if authGqlError e then
    let c1 := { c with storage := { c.storage with
                  accessToken := none, refreshToken := none, userData := none } }
    if !strContains c1.pathname "/login" && !strContains c1.pathname "/register"
    then { c1 with href := some "/login" }
    else c1
  else c

/-- Operation `handleTokenRefresh`: no stored refresh token → navigate to `/login`;
otherwise send the token to the refresh endpoint once.  Success with tokens
updates the two token keys and reloads the page; any other outcome runs
`localStorage.clear()` (wiping every key) and navigates to `/login`.  The
second component lists the refresh tokens sent. -/
def handleTokenRefresh (rotate : String → FetchOutcome) (c : ClientCtx) :
    ClientCtx × List String :=
  match c.storage.refreshToken with
  | none => ({ c with href := some "/login" }, [])
  | some rt =>
      match rotate rt with
      | .ok (some result) =>
          match result.success, result.tokens with
          | true, some t =>
              ({ c with storage := { c.storage with
                            accessToken := some t.accessToken,
                            refreshToken := some t.refreshToken },
                        reloaded := true }, [rt])
          | _, _ =>
              ({ c with storage := emptyStorage, href := some "/login" }, [rt])
      | .ok none =>
          ({ c with storage := emptyStorage, href := some "/login" }, [rt])
      | .error _ =>
          ({ c with storage := emptyStorage, href := some "/login" }, [rt])

/-- Operation `errorLink` (the `onError` callback): processes each GraphQL error with
`handleGqlError`; then, if a network error with `statusCode === 401` is
present, fires `handleTokenRefresh`.  Returns the refresh tokens sent. -/
def errorLink (rotate : String → FetchOutcome) (gqlErrors : List GqlError)
    (netError : Option NetError) (c : ClientCtx) : ClientCtx × List String :=
  let c1 := gqlErrors.foldl handleGqlError c
  match netError with
  | some ne =>
      if ne.statusCode == some 401 then handleTokenRefresh rotate c1
      else (c1, [])
  | none => (c1, [])

/-! Route guard (src/frontend/src/components/ProtectedRoute.tsx) -/

/-- The `requiredRole` prop: a single role or an array of roles. -/
inductive RoleReq
  | single (r : UserRole)
  | many (rs : List UserRole)
deriving DecidableEq, Repr

/-- What `ProtectedRoute` renders, as an abstract action. -/
inductive RouteAction
  | pending
  | redirectLogin (origin : String)
  | redirectUnauthorized
  | redirectDashboard
  | render
deriving DecidableEq, Repr

/-- The `hasRequiredRole` expression: `user?.role && (Array.isArray(...) ?
includes : equality)`; a missing user yields no match. -/
def hasRequiredRole (user : Option User) (req : RoleReq) : Bool :=
  match user with
  | some u =>
      match req with
      | .single r => u.role == r
      | .many rs => rs.contains u.role
  | none => false

/-- The `if (requiredRole) { ... if (!hasRequiredRole) return ... }` guard:
true when a role requirement is present and unmet. -/
def roleGateFails (user : Option User) (requiredRole : Option RoleReq) : Bool :=
  match requiredRole with
  | some req => !hasRequiredRole user req
  | none => false

/-- Component `ProtectedRoute`, with its early returns in source order. -/
def ProtectedRoute (loading isAuthenticated : Bool) (user : Option User)
    (requireAuth : Bool) (requiredRole : Option RoleReq) (pathname : String) :
    RouteAction :=
  if loading then .pending
  else if requireAuth && !isAuthenticated then .redirectLogin pathname
  else if roleGateFails user requiredRole then .redirectUnauthorized
  else if !requireAuth && isAuthenticated &&
      (pathname == "/login" || pathname == "/register") then .redirectDashboard
  else .render

/-- The route-guard decision procedure as the specification words it:
clauses read in order, each applying only in the cases the earlier clauses
leave open ("in all remaining cases it renders the content").  Role match
means the user holds one of the required roles. -/
def routeGuardSpec (loading requireAuth authenticated : Bool)
    (user : Option User) (requiredRoles : Option RoleReq) (path : String) :
    RouteAction :=
  if loading then .pending
  else if requireAuth && !authenticated then .redirectLogin path
  else if requiredRoles.elim false (fun req =>
      !(user.elim false (fun u =>
        match req with
        | .single r => u.role == r
        | .many rs => rs.contains u.role))) then .redirectUnauthorized
  else if !requireAuth && authenticated &&
      (path == "/login" || path == "/register") then .redirectDashboard
  else .render

/-! Interleaving model of concurrent `refreshTokens` calls

`refreshTokens` suspends exactly once, at `await refreshTokenMutation`.  Its
execution therefore splits into two atomic segments: the synchronous prefix
(read the stored refresh token and issue the request) and the resumption
(`refreshHandle` on the awaited outcome).  Nothing in the source consults an
in-flight flag before issuing the request, so a second call may run its
prefix while the first is suspended. -/

inductive RefreshPhase
  | start
  | awaitingRotate (rt : String)
  | done (ok : Bool)
deriving DecidableEq, Repr

/-- Two concurrent `refreshTokens` executions over the shared storage and
auth state; `sent` logs `(process tag, refresh token)` per issued request. -/
structure RaceState where
  store : Storage
  auth : AuthState
  p1 : RefreshPhase
  p2 : RefreshPhase
  sent : List (Bool × String)
deriving DecidableEq, Repr

/-- One atomic segment of a single `refreshTokens` execution. -/
def stepProcess (rotate : String → ServerOutcome) (ph : RefreshPhase)
    (σ : Storage) (s : AuthState) (tag : Bool) (log : List (Bool × String)) :
    RefreshPhase × Storage × AuthState × List (Bool × String) :=
  match ph with
  | .start =>
      match σ.refreshToken with
      | none => (.done false, σ, s, log)
      | some rt => (.awaitingRotate rt, σ, s, log ++ [(tag, rt)])
  | .awaitingRotate rt =>
      let ((σ2, s2), ok) := refreshHandle (rotate rt) σ s
      (.done ok, σ2, s2, log)
  | .done ok => (.done ok, σ, s, log)

/-- Scheduler step: `true` advances the first call, `false` the second. -/
def raceStep (rotate : String → ServerOutcome) (rs : RaceState) (i : Bool) :
    RaceState :=
  if i then
    let (ph, σ, s, log) := stepProcess rotate rs.p1 rs.store rs.auth true rs.sent
    { rs with p1 := ph, store := σ, auth := s, sent := log }
  else
    let (ph, σ, s, log) := stepProcess rotate rs.p2 rs.store rs.auth false rs.sent
    { rs with p2 := ph, store := σ, auth := s, sent := log }

/-- Run a schedule of interleaved segments. -/
def raceRun (rotate : String → ServerOutcome) (rs : RaceState)
    (sched : List Bool) : RaceState :=
  sched.foldl (raceStep rotate) rs

/-! Concrete fixtures -/

def sampleUser : User :=
  { id := "u1", username := "alice", email := "a@x.com",
    role := .USER, status := .ACTIVE }

def pairA : TokenPair :=
  { accessToken := "acc1", refreshToken := "ref1",
    tokenType := "bearer", expiresIn := 1800 }

def pairB : TokenPair :=
  { accessToken := "acc2", refreshToken := "ref2",
    tokenType := "bearer", expiresIn := 1800 }

/-- A populated durable store holding `pairA` and `sampleUser`. -/
def storedSession : Storage :=
  { accessToken := some "acc1", refreshToken := some "ref1",
    userData := some (some sampleUser), other := false }

/-- A fully populated success response carrying `t` and `sampleUser`. -/
def okResponse (t : TokenPair) : AuthResponse :=
  { success := true, message := "ok", tokens := some t, user := some sampleUser }

/-- Success of the awaited rotate outcome, as `refreshTokens` judges it. -/
def rotateSucceeds (o : ServerOutcome) : Bool :=
  match o with
  | .ok r => responseOk r
  | .error _ => false

/-! Claims -/

/-- C1: claimed invariant — in every reachable session state,
`authenticated = true` iff Identity and TokenPair are present and the held
pair is the most recently issued/rotated one.  The code violates the
staleness half on the restart path: after a successful login storing
`pairA`, a restart (`checkAuth` from a fresh in-memory state) whose rotate
succeeds with `pairB` leaves the state authenticated but holding the stale
pre-rotation pair rebuilt from storage, while durable storage holds the
freshly rotated `pairB`. -/
theorem c1_checkAuth_keeps_stale_pair :
    (let afterLogin :=
      (login (.ok (okResponse pairA)) emptyStorage initialState).1
     let afterRestart :=
      (checkAuth (fun _ => .ok (okResponse pairB)) afterLogin.1 initialState).1
     afterRestart.2.isAuthenticated = true ∧
     afterRestart.2.tokens = some pairA ∧
     afterRestart.1.accessToken = some "acc2" ∧
     afterRestart.1.refreshToken = some "ref2") := by
  decide

/-- C2: when the stored refresh token is present but the rotate call fails
(non-success response, missing tokens/user, or a thrown error),
`refreshTokens` removes all three durable keys, resets the in-memory state
to the anonymous initial state, returns `false`, and has sent the refresh
token to the server exactly once — it is never retried. -/
theorem c2_refresh_failure_clears_session
    (rotate : String → ServerOutcome) (σ : Storage) (s : AuthState)
    (rt : String) (hrt : σ.refreshToken = some rt)
    (hfail : ∀ r, rotate rt = .ok r → responseOk r = false) :
    (refreshTokens rotate σ s).1.1.accessToken = none ∧
    (refreshTokens rotate σ s).1.1.refreshToken = none ∧
    (refreshTokens rotate σ s).1.1.userData = none ∧
    (refreshTokens rotate σ s).1.2 = initialState ∧
    (refreshTokens rotate σ s).2.1 = false ∧
    (refreshTokens rotate σ s).2.2 = [rt] := by
  simp only [refreshTokens, hrt]
  cases hr : rotate rt with
  | error e =>
      simp [refreshHandle, hr, clearAuth, authReducer]
  | ok r =>
      have hbad := hfail r hr
      obtain ⟨succ, msg, tok, usr⟩ := r
      simp only [responseOk, Bool.and_eq_false_iff] at hbad
      cases succ <;> cases tok <;> cases usr <;>
        simp_all [refreshHandle, clearAuth, authReducer]

/-- C2 witness: a concrete failing rotate response against a populated
store. -/
theorem c2_witness :
    (refreshTokens (fun _ => .ok { success := false, message := "expired" })
      storedSession initialState).1.1.accessToken = none ∧
    (refreshTokens (fun _ => .ok { success := false, message := "expired" })
      storedSession initialState).1.1.refreshToken = none ∧
    (refreshTokens (fun _ => .ok { success := false, message := "expired" })
      storedSession initialState).1.1.userData = none ∧
    (refreshTokens (fun _ => .ok { success := false, message := "expired" })
      storedSession initialState).1.2 = initialState ∧
    (refreshTokens (fun _ => .ok { success := false, message := "expired" })
      storedSession initialState).2.1 = false ∧
    (refreshTokens (fun _ => .ok { success := false, message := "expired" })
      storedSession initialState).2.2 = ["ref1"] :=
  c2_refresh_failure_clears_session _ _ _ "ref1" rfl
    (by intro r h; cases h; decide)

/-- C4: `logout` ignores the server outcome entirely — whether the logout
mutation resolves or throws, it runs `clearAuth`: the three durable keys are
removed and the in-memory state is reset to the anonymous initial state; no
error is surfaced (the result is the same total state transformation). -/
theorem c4_logout_clears_unconditionally (resp : Except Unit Unit)
    (σ : Storage) (s : AuthState) :
    logout resp σ s = clearAuth σ s ∧
    logout resp σ s = logout (.error ()) σ s ∧
    (logout resp σ s).1.accessToken = none ∧
    (logout resp σ s).1.refreshToken = none ∧
    (logout resp σ s).1.userData = none ∧
    (logout resp σ s).2 = initialState := by
  refine ⟨rfl, rfl, rfl, rfl, rfl, ?_⟩
  simp [logout, clearAuth, authReducer]

/-- C5: whenever the three durable keys survive a restart, `checkAuth` sends
the stored refresh token to `rotate` exactly once, the resulting state is
authenticated exactly when that rotate succeeded, and a failed rotate leaves
the durable store cleared and the in-memory state anonymous — the persisted
tokens are never trusted blindly. -/
theorem c5_restart_revalidates_via_rotate
    (rotate : String → ServerOutcome) (σ : Storage) (s : AuthState)
    (a rt : String) (u : User)
    (ha : σ.accessToken = some a) (hr : σ.refreshToken = some rt)
    (hu : σ.userData = some (some u)) :
    (checkAuth rotate σ s).2 = [rt] ∧
    (checkAuth rotate σ s).1.2.isAuthenticated = rotateSucceeds (rotate rt) ∧
    (rotateSucceeds (rotate rt) = false →
      (checkAuth rotate σ s).1.1.accessToken = none ∧
      (checkAuth rotate σ s).1.1.refreshToken = none ∧
      (checkAuth rotate σ s).1.1.userData = none ∧
      (checkAuth rotate σ s).1.2 = initialState) := by
  simp only [checkAuth, refreshTokens, ha, hr, hu]
  cases hrot : rotate rt with
  | error e =>
      simp [refreshHandle, hrot, rotateSucceeds, clearAuth, authReducer,
        initialState]
  | ok r =>
      obtain ⟨succ, msg, tok, usr⟩ := r
      cases succ <;> cases tok <;> cases usr <;>
        simp_all [refreshHandle, rotateSucceeds, responseOk, clearAuth,
          storeAuth, authReducer, initialState]

/-- C5 witness: a stored session whose rotate is rejected. -/
theorem c5_witness :
    (checkAuth (fun _ => .ok { success := false, message := "expired" })
      storedSession initialState).2 = ["ref1"] ∧
    (checkAuth (fun _ => .ok { success := false, message := "expired" })
      storedSession initialState).1.2.isAuthenticated =
      rotateSucceeds ((fun _ : String =>
        (.ok { success := false, message := "expired" } : ServerOutcome)) "ref1") ∧
    (rotateSucceeds ((fun _ : String =>
        (.ok { success := false, message := "expired" } : ServerOutcome)) "ref1") = false →
      (checkAuth (fun _ => .ok { success := false, message := "expired" })
        storedSession initialState).1.1.accessToken = none ∧
      (checkAuth (fun _ => .ok { success := false, message := "expired" })
        storedSession initialState).1.1.refreshToken = none ∧
      (checkAuth (fun _ => .ok { success := false, message := "expired" })
        storedSession initialState).1.1.userData = none ∧
      (checkAuth (fun _ => .ok { success := false, message := "expired" })
        storedSession initialState).1.2 = initialState) :=
  c5_restart_revalidates_via_rotate _ _ _ "acc1" "ref1" sampleUser rfl rfl rfl

/-- C6: `ProtectedRoute` is a pure function of the session state, the
`requireAuth` flag, the required roles and the current path, and it equals
the specification decision table read clause by clause: pending while
loading; login redirect (remembering the origin path) when auth is required
but absent; unauthorized when roles are required and unmatched; dashboard
redirect for an authenticated visit to `/login` or `/register` on a
non-protected route; rendering the content in all remaining cases. -/
theorem c6_route_guard_matches_spec (loading isAuthenticated : Bool)
    (user : Option User) (requireAuth : Bool) (requiredRole : Option RoleReq)
    (pathname : String) :
    ProtectedRoute loading isAuthenticated user requireAuth requiredRole
      pathname =
    routeGuardSpec loading requireAuth isAuthenticated user requiredRole
      pathname := by
  cases requiredRole <;> cases user <;> rfl

/-- C7: a login response with `success = true`, tokens and user present
drives the controller to the authenticated state holding exactly that
identity and pair, persists the access token, refresh token and serialized
user to durable storage, and returns the response unchanged. -/
theorem c7_login_success_stores_and_persists (r : AuthResponse) (σ : Storage)
    (s : AuthState) (t : TokenPair) (u : User)
    (hs : r.success = true) (ht : r.tokens = some t) (hu : r.user = some u) :
    login (.ok r) σ s =
      (({ σ with accessToken := some t.accessToken,
                 refreshToken := some t.refreshToken,
                 userData := some (some u) },
        { isAuthenticated := true, user := some u, tokens := some t,
          loading := false, error := none }), r) := by
  obtain ⟨succ, msg, tok, usr⟩ := r
  simp only at hs ht hu
  subst hs ht hu
  simp [login, storeAuth, authReducer]

/-- C7 witness: a concrete successful login. -/
theorem c7_witness :
    login (.ok (okResponse pairA)) emptyStorage initialState =
      (({ emptyStorage with accessToken := some "acc1",
                            refreshToken := some "ref1",
                            userData := some (some sampleUser) },
        { isAuthenticated := true, user := some sampleUser,
          tokens := some pairA, loading := false, error := none }),
       okResponse pairA) :=
  c7_login_success_stores_and_persists _ _ _ pairA sampleUser rfl rfl rfl

/-- C8 counterexample: a registration response with `success = true` and a
TokenPair included but no user is NOT stored — the controller takes the
error branch, nothing is persisted and the state ends unauthenticated —
refuting the claim that token presence alone drives auto-login. -/
theorem c8_counterexample :
    (register (.ok { success := true, message := "ok", tokens := some pairA })
      emptyStorage initialState).1.2.isAuthenticated = false ∧
    (register (.ok { success := true, message := "ok", tokens := some pairA })
      emptyStorage initialState).1.1 = emptyStorage := by
  decide

/-- C8 (amended): for a registration response with `success = true` and the
user present, the controller branches on token presence: with tokens it
stores and persists identity and pair and becomes authenticated; without
tokens it stores nothing — durable storage is untouched and the in-memory
authentication fields are unchanged (the session stays anonymous when it was
anonymous), with only the loading flag cleared. -/
theorem c8_register_branches_on_tokens (r : AuthResponse) (σ : Storage)
    (s : AuthState) (u : User)
    (hs : r.success = true) (hu : r.user = some u) :
    (∀ t, r.tokens = some t →
      register (.ok r) σ s =
        (({ σ with accessToken := some t.accessToken,
                   refreshToken := some t.refreshToken,
                   userData := some (some u) },
          { isAuthenticated := true, user := some u, tokens := some t,
            loading := false, error := none }), r)) ∧
    (r.tokens = none →
      register (.ok r) σ s =
        ((σ, { s with loading := false, error := none }), r)) := by
  obtain ⟨succ, msg, tok, usr⟩ := r
  simp only at hs hu
  subst hs hu
  constructor
  · intro t htok
    simp only at htok
    subst htok
    simp [register, storeAuth, authReducer]
  · intro htok
    simp only at htok
    subst htok
    simp [register, authReducer]

/-- C8 witness: the verification-pending branch (success, user, no tokens)
leaves storage and authentication untouched. -/
theorem c8_witness :
    (∀ t, (({ success := true, message := "check email",
              user := some sampleUser } : AuthResponse)).tokens = some t →
      register (.ok { success := true, message := "check email",
                      user := some sampleUser }) emptyStorage initialState =
        (({ emptyStorage with accessToken := some t.accessToken,
                              refreshToken := some t.refreshToken,
                              userData := some (some sampleUser) },
          { isAuthenticated := true, user := some sampleUser,
            tokens := some t, loading := false, error := none }),
         { success := true, message := "check email",
           user := some sampleUser })) ∧
    ((({ success := true, message := "check email",
         user := some sampleUser } : AuthResponse)).tokens = none →
      register (.ok { success := true, message := "check email",
                      user := some sampleUser }) emptyStorage initialState =
        ((emptyStorage,
          { initialState with loading := false, error := none }),
         { success := true, message := "check email",
           user := some sampleUser })) :=
  c8_register_branches_on_tokens _ _ _ sampleUser rfl rfl

/-- C9: the claimed serialization does not exist in the code.  Two
`refreshTokens` executions interleaved at their single `await` both read the
same stored refresh token and both issue a rotate request for it: after the
schedule in which each runs its synchronous prefix, the request log shows
two in-flight rotates with the identical token and neither call was rejected
or queued. -/
theorem c9_concurrent_refreshes_interleave :
    (let rs0 : RaceState :=
      { store := storedSession, auth := initialState,
        p1 := .start, p2 := .start, sent := [] }
     let rs2 := raceRun (fun _ => .ok (okResponse pairB)) rs0 [true, false]
     rs2.sent = [(true, "ref1"), (false, "ref1")] ∧
     rs2.p1 = .awaitingRotate "ref1" ∧
     rs2.p2 = .awaitingRotate "ref1") := by
  decide

/-- C10: a `login` or `walletLogin` response with `success = true` but
missing tokens or user is treated as a failure: the state becomes
unauthenticated with the response message as the last error, durable storage
is untouched, and the response is returned unchanged. -/
theorem c10_success_without_payload_is_failure (r : AuthResponse)
    (σ : Storage) (s : AuthState) (hs : r.success = true)
    (hmiss : r.tokens = none ∨ r.user = none) :
    login (.ok r) σ s =
      ((σ, { isAuthenticated := false, user := none, tokens := none,
             loading := false, error := some r.message }), r) ∧
    connectWallet (.ok r) σ s =
      ((σ, { isAuthenticated := false, user := none, tokens := none,
             loading := false, error := some r.message }), r) := by
  obtain ⟨succ, msg, tok, usr⟩ := r
  simp only at hs
  subst hs
  rcases hmiss with h | h <;> simp only at h <;> subst h
  · cases usr <;> simp [login, connectWallet, authReducer]
  · cases tok <;> simp [login, connectWallet, authReducer]

/-- C10 witness: a success response with no tokens and no user. -/
theorem c10_witness :
    login (.ok { success := true, message := "odd" })
      emptyStorage initialState =
      ((emptyStorage,
        { isAuthenticated := false, user := none, tokens := none,
          loading := false, error := some "odd" }),
       { success := true, message := "odd" }) ∧
    connectWallet (.ok { success := true, message := "odd" })
      emptyStorage initialState =
      ((emptyStorage,
        { isAuthenticated := false, user := none, tokens := none,
          loading := false, error := some "odd" }),
       { success := true, message := "odd" }) :=
  c10_success_without_payload_is_failure _ _ _ rfl (Or.inl rfl)

/-- Success of the raw refresh fetch as `handleTokenRefresh` judges it:
`data.refreshToken.success` truthy with tokens present. -/
def fetchRotateOk (o : FetchOutcome) : Bool :=
  match o with
  | .ok (some r) => r.success && r.tokens.isSome
  | _ => false

/-- A browser context on a protected page with a stored session. -/
def dashboardCtx : ClientCtx :=
  { storage := storedSession, pathname := "/dashboard",
    href := none, reloaded := false }

/-- A GraphQL error carrying the not-authenticated signal. -/
def unauthenticatedError : GqlError :=
  { message := "Not authenticated", code := some "UNAUTHENTICATED" }

/-- C3 counterexample: on a GraphQL response signaling "not authenticated"
(code `UNAUTHENTICATED`), with a refresh token in storage, the error link
sends no rotate request at all — it clears the session keys and redirects to
login directly, refuting the claim that such a response triggers the refresh
path and that the session is cleared only on refresh failure. -/
theorem c3_counterexample :
    (errorLink (fun _ => .error ()) [unauthenticatedError] none
      dashboardCtx).2 = [] ∧
    (errorLink (fun _ => .error ()) [unauthenticatedError] none
      dashboardCtx).1.storage.accessToken = none ∧
    (errorLink (fun _ => .error ()) [unauthenticatedError] none
      dashboardCtx).1.storage.refreshToken = none ∧
    (errorLink (fun _ => .error ()) [unauthenticatedError] none
      dashboardCtx).1.href = some "/login" := by
  decide

/-- C3 (amended): a GraphQL error signaling "not authenticated" does not
trigger the refresh path — the error link clears the three session keys and,
when the current path is not an auth page, redirects to login, issuing no
rotate request; the refresh path runs only for a transport-level 401 network
error: it sends the stored refresh token once, on a failed refresh wipes all
client storage and redirects to login, and on a successful refresh stores
the new pair and reloads the page. -/
theorem c3_error_link_refresh_paths :
    (∀ (rotate : String → FetchOutcome) (c : ClientCtx) (e : GqlError),
      authGqlError e = true →
      strContains c.pathname "/login" = false →
      strContains c.pathname "/register" = false →
      (errorLink rotate [e] none c).2 = [] ∧
      (errorLink rotate [e] none c).1.storage.accessToken = none ∧
      (errorLink rotate [e] none c).1.storage.refreshToken = none ∧
      (errorLink rotate [e] none c).1.storage.userData = none ∧
      (errorLink rotate [e] none c).1.href = some "/login") ∧
    (∀ (rotate : String → FetchOutcome) (c : ClientCtx) (ne : NetError)
        (rt : String),
      ne.statusCode = some 401 →
      c.storage.refreshToken = some rt →
      (errorLink rotate [] (some ne) c).2 = [rt] ∧
      (fetchRotateOk (rotate rt) = false →
        (errorLink rotate [] (some ne) c).1.storage = emptyStorage ∧
        (errorLink rotate [] (some ne) c).1.href = some "/login") ∧
      (∀ r t, rotate rt = .ok (some r) → r.success = true →
        r.tokens = some t →
        (errorLink rotate [] (some ne) c).1.storage.accessToken =
          some t.accessToken ∧
        (errorLink rotate [] (some ne) c).1.storage.refreshToken =
          some t.refreshToken ∧
        (errorLink rotate [] (some ne) c).1.reloaded = true)) := by
  constructor
  · intro rotate c e he hp1 hp2
    simp [errorLink, handleGqlError, he, hp1, hp2]
  · intro rotate c ne rt hne hrt
    simp only [errorLink, List.foldl, hne, beq_self_eq_true, if_true,
      handleTokenRefresh, hrt]
    cases hro : rotate rt with
    | error e =>
        refine ⟨rfl, fun _ => ⟨rfl, rfl⟩, ?_⟩
        intro r t hok
        simp at hok
    | ok o =>
        cases o with
        | none =>
            refine ⟨rfl, fun _ => ⟨rfl, rfl⟩, ?_⟩
            intro r t hok
            simp at hok
        | some r =>
            obtain ⟨succ, msg, tok, usr⟩ := r
            cases succ with
            | false =>
                refine ⟨rfl, fun _ => ⟨rfl, rfl⟩, ?_⟩
                intro r' t' hok hs' ht'
                injection hok with h1
                injection h1 with h2
                subst h2
                simp at hs'
            | true =>
                cases tok with
                | none =>
                    refine ⟨rfl, fun _ => ⟨rfl, rfl⟩, ?_⟩
                    intro r' t' hok hs' ht'
                    injection hok with h1
                    injection h1 with h2
                    subst h2
                    simp at ht'
                | some val =>
                    refine ⟨rfl, ?_, ?_⟩
                    · intro hf
                      simp [fetchRotateOk] at hf
                    · intro r' t' hok hs' ht'
                      injection hok with h1
                      injection h1 with h2
                      subst h2
                      injection ht' with h3
                      subst h3
                      exact ⟨rfl, rfl, rfl⟩

/-- C3 witness: both amended paths at concrete inputs — a GraphQL
not-authenticated error on the dashboard, and a 401 network error whose
refresh fetch throws. -/
theorem c3_witness :
    ((errorLink (fun _ => .error ()) [unauthenticatedError] none
        dashboardCtx).2 = [] ∧
     (errorLink (fun _ => .error ()) [unauthenticatedError] none
        dashboardCtx).1.storage.accessToken = none ∧
     (errorLink (fun _ => .error ()) [unauthenticatedError] none
        dashboardCtx).1.storage.refreshToken = none ∧
     (errorLink (fun _ => .error ()) [unauthenticatedError] none
        dashboardCtx).1.storage.userData = none ∧
     (errorLink (fun _ => .error ()) [unauthenticatedError] none
        dashboardCtx).1.href = some "/login") ∧
    ((errorLink (fun _ => .error ()) [] (some { statusCode := some 401 })
        dashboardCtx).2 = ["ref1"] ∧
     (fetchRotateOk ((fun _ : String => (.error () : FetchOutcome)) "ref1") =
        false →
       (errorLink (fun _ => .error ()) [] (some { statusCode := some 401 })
          dashboardCtx).1.storage = emptyStorage ∧
       (errorLink (fun _ => .error ()) [] (some { statusCode := some 401 })
          dashboardCtx).1.href = some "/login") ∧
     (∀ r t, (fun _ : String => (.error () : FetchOutcome)) "ref1" =
          .ok (some r) → r.success = true → r.tokens = some t →
       (errorLink (fun _ => .error ()) [] (some { statusCode := some 401 })
          dashboardCtx).1.storage.accessToken = some t.accessToken ∧
       (errorLink (fun _ => .error ()) [] (some { statusCode := some 401 })
          dashboardCtx).1.storage.refreshToken = some t.refreshToken ∧
       (errorLink (fun _ => .error ()) [] (some { statusCode := some 401 })
          dashboardCtx).1.reloaded = true)) :=
  ⟨c3_error_link_refresh_paths.1 (fun _ => .error ()) dashboardCtx
      unauthenticatedError (by decide) (by decide) (by decide),
   c3_error_link_refresh_paths.2 (fun _ => .error ()) dashboardCtx
      { statusCode := some 401 } "ref1" rfl rfl⟩

end DApp
